import Mathlib

/-!
Shallow embedding of the horizon-sky rendering core (src/gradient.ts,
src/correction.ts, src/compute.ts) over an arbitrary linear ordered field.

The TypeScript code computes with IEEE doubles and the `Math` library; the
embedding replaces doubles by an arbitrary `LinearOrderedField` and gathers the
transcendental primitives (`Math.PI`, `Math.sin`, `Math.cos`, `Math.tan`,
`Math.acos`, `Math.sqrt`, `Math.exp`, `Math.pow`) into an explicit record
`MathPrims`, so that theorems can instantiate them with the real functions
(`Real.pi`, `Real.sin`, ...) while concrete evaluations instantiate the field
with `ℚ` and the primitives with simple rational functions.
-/

namespace HorizonSky

variable {α : Type*} [LinearOrderedField α]

/-- RGB triple or 3D vector, as in `utils.ts` (`Vec3 = [number, number, number]`). -/
def Vec3 (α : Type*) := α × α × α

/-- Modelled from the spec: the pure vector helper `dot` from the missing
`utils.ts` (dot product of two 3-vectors). -/
def dot (a b : Vec3 α) : α := a.1 * b.1 + a.2.1 * b.2.1 + a.2.2 * b.2.2

/-- Modelled from the spec: the pure vector helper `len` from the missing
`utils.ts` (Euclidean length, via the square-root primitive). -/
def len (sqrt : α → α) (v : Vec3 α) : α := sqrt (dot v v)

/-- Modelled from the spec: the pure vector helper `norm` from the missing
`utils.ts` (normalize: divide each component by the length). -/
def norm (sqrt : α → α) (v : Vec3 α) : Vec3 α :=
  let l := len sqrt v
  (v.1 / l, v.2.1 / l, v.2.2 / l)

/-- Modelled from the spec: the pure vector helper `add` from the missing
`utils.ts` (componentwise addition). -/
def add (a b : Vec3 α) : Vec3 α := (a.1 + b.1, a.2.1 + b.2.1, a.2.2 + b.2.2)

/-- Modelled from the spec: the pure vector helper `scale` from the missing
`utils.ts` (multiply each component by a scalar). -/
def scale (v : Vec3 α) (k : α) : Vec3 α := (v.1 * k, v.2.1 * k, v.2.2 * k)

/-- Modelled from the spec: the pure vector helper `vecExp` from the missing
`utils.ts` (componentwise exponential, via the exponential primitive). -/
def vecExp (exp : α → α) (v : Vec3 α) : Vec3 α := (exp v.1, exp v.2.1, exp v.2.2)

/-- Modelled from the spec: the pure helper `clamp` from the missing
`utils.ts` (clamp a scalar into an interval). -/
def clamp (x lo hi : α) : α := min (max x lo) hi

/-- The transcendental primitives of the JavaScript `Math` library used by the
renderer, abstracted so the embedding stays polymorphic and executable. -/
structure MathPrims (α : Type*) where
  pi : α
  sin : α → α
  cos : α → α
  tan : α → α
  acos : α → α
  sqrt : α → α
  exp : α → α
  pow : α → α → α

/-- Constant `RAYLEIGH_SCATTER` from `gradient.ts`. -/
def RAYLEIGH_SCATTER : Vec3 α := (5.802e-6, 13.558e-6, 33.1e-6)

/-- Constant `MIE_SCATTER` from `gradient.ts`. -/
def MIE_SCATTER : α := 3.996e-6

/-- Constant `MIE_ABSORB` from `gradient.ts`. -/
def MIE_ABSORB : α := 4.44e-6

/-- Constant `OZONE_ABSORB` from `gradient.ts`. -/
def OZONE_ABSORB : Vec3 α := (0.65e-6, 1.881e-6, 0.085e-6)

/-- Constant `RAYLEIGH_SCALE_HEIGHT` from `gradient.ts`. -/
def RAYLEIGH_SCALE_HEIGHT : α := 8000

/-- Constant `MIE_SCALE_HEIGHT` from `gradient.ts`. -/
def MIE_SCALE_HEIGHT : α := 1200

/-- Constant `GROUND_RADIUS` from `gradient.ts` (6,360 km in meters). -/
def GROUND_RADIUS : α := 6360000

/-- Constant `TOP_RADIUS` from `gradient.ts` (6,460 km in meters). -/
def TOP_RADIUS : α := 6460000

/-- Constant `SUN_INTENSITY` from `gradient.ts`. -/
def SUN_INTENSITY : α := 1.0

/-- Constant `SAMPLES` from `gradient.ts`. -/
def SAMPLES : ℕ := 32

/-- Constant `FOV_DEG` from `gradient.ts`. -/
def FOV_DEG : α := 75

/-- Constant `EXPOSURE_DAY` from `gradient.ts`. -/
def EXPOSURE_DAY : α := 18.0

/-- Constant `EXPOSURE_SUNSET` from `gradient.ts`. -/
def EXPOSURE_SUNSET : α := 35.0

/-- Constant `EXPOSURE_NIGHT` from `gradient.ts`. -/
def EXPOSURE_NIGHT : α := 6.0

/-- Constant `GAMMA` from `gradient.ts`. -/
def GAMMA : α := 2.2

/-- Constant `SUNSET_BIAS_STRENGTH` from `gradient.ts`. -/
def SUNSET_BIAS_STRENGTH : α := 0.5

/-- One channel of the `aces` tone-mapping curve from `gradient.ts`. -/
def acesChannel (c : α) : α :=
  let n := c * (2.51 * c + 0.03)
  let d := c * (2.43 * c + 0.59) + 0.14
  max 0 (min 1 (n / d))

/-- Function `aces` from `gradient.ts`: ACES-style filmic tone map, per channel. -/
def aces (color : Vec3 α) : Vec3 α :=
  (acesChannel color.1, acesChannel color.2.1, acesChannel color.2.2)

/-- Function `applySunsetBias` from `gradient.ts`. -/
def applySunsetBias (c : Vec3 α) : Vec3 α :=
  let r := c.1
  let g := c.2.1
  let b := c.2.2
  let lum := 0.2126 * r + 0.7152 * g + 0.0722 * b
  let w := 1.0 / (1.0 + 2.0 * lum)
  let k : α := SUNSET_BIAS_STRENGTH
  let rb := 1.0 + 0.5 * k * w
  let gb := 1.0 - 0.5 * k * w
  let bb := 1.0 + 1.0 * k * w
  (max 0 (r * rb), max 0 (g * gb), max 0 (b * bb))

/-- Function `rayleighPhase` from `gradient.ts`. -/
def rayleighPhase (M : MathPrims α) (angle : α) : α :=
  3 * (1 + M.cos angle ^ 2) / (16 * M.pi)

/-- Function `miePhase` from `gradient.ts` (Henyey–Greenstein with g = 0.8). -/
def miePhase (M : MathPrims α) (angle : α) : α :=
  let g : α := 0.8
  let s := 3 / (8 * M.pi)
  let num := (1 - g ^ 2) * (1 + M.cos angle ^ 2)
  let denom := (2 + g ^ 2) * M.pow (1 + g ^ 2 - 2 * g * M.cos angle) (3 / 2)
  s * num / denom

/-- Function `intersectSphere` from `gradient.ts`: ray–sphere intersection for a
sphere of radius `r` centered at the origin; `null` is modelled by `none`. -/
def intersectSphere (sqrt : α → α) (p d : Vec3 α) (r : α) : Option α :=
  let m := p
  let b := dot m d
  let c := dot m m - r ^ 2
  let discr := b ^ 2 - c
  if discr < 0 then none
  else
    let t := -b - sqrt discr
    if t < 0 then some (-b + sqrt discr) else some t

/-- One iteration of the optical-depth accumulation loop inside
`computeTransmittance` in `gradient.ts`; the state is the triple of optical
depths `(odRayleigh, odMie, odOzone)` together with the current ray
parameter `t`. -/
def transmStep (M : MathPrims α) (rayOrigin rayDirection : Vec3 α)
    (segmentLength : α) (st : (α × α × α) × α) (_i : ℕ) : (α × α × α) × α :=
  let t := st.2
  let odRayleigh := st.1.1
  let odMie := st.1.2.1
  let odOzone := st.1.2.2
  let pos := add rayOrigin (scale rayDirection t)
  let h := len M.sqrt pos - GROUND_RADIUS
  let dR := M.exp (-h / RAYLEIGH_SCALE_HEIGHT)
  let dM := M.exp (-h / MIE_SCALE_HEIGHT)
  let ozoneDensity := 1.0 - min (|h - 25000| / 15000) 1.0
  ((odRayleigh + dR * segmentLength, odMie + dM * segmentLength,
    odOzone + ozoneDensity * segmentLength), t + segmentLength)

/-- The optical-depth integration of `computeTransmittance` in `gradient.ts`
(the body after the early `!distance` return): 32 equal steps sampled at
midpoints, then per-channel extinction and componentwise exponential. -/
def transmittanceIntegrate (M : MathPrims α) (height angle distance : α) : Vec3 α :=
  let rayOrigin : Vec3 α := (0, GROUND_RADIUS + height, 0)
  let rayDirection : Vec3 α := (M.sin angle, M.cos angle, 0)
  let segmentLength := distance / (SAMPLES : α)
  let od := ((List.range SAMPLES).foldl
    (transmStep M rayOrigin rayDirection segmentLength) ((0, 0, 0), 0.5 * segmentLength)).1
  let odRayleigh := od.1
  let odMie := od.2.1
  let odOzone := od.2.2
  let tauR : Vec3 α := ((RAYLEIGH_SCATTER : Vec3 α).1 * odRayleigh,
    (RAYLEIGH_SCATTER : Vec3 α).2.1 * odRayleigh, (RAYLEIGH_SCATTER : Vec3 α).2.2 * odRayleigh)
  let tauM : Vec3 α := (MIE_ABSORB * odMie, MIE_ABSORB * odMie, MIE_ABSORB * odMie)
  let tauO : Vec3 α := ((OZONE_ABSORB : Vec3 α).1 * odOzone,
    (OZONE_ABSORB : Vec3 α).2.1 * odOzone, (OZONE_ABSORB : Vec3 α).2.2 * odOzone)
  let tau : Vec3 α := (-(tauR.1 + tauM.1 + tauO.1), -(tauR.2.1 + tauM.2.1 + tauO.2.1),
    -(tauR.2.2 + tauM.2.2 + tauO.2.2))
  vecExp M.exp tau

/-- Function `computeTransmittance` from `gradient.ts`. The JavaScript guard
`if (!distance) return [1, 1, 1]` is truthy-falsy: it fires both when the
intersection is `null` and when the returned distance is `0`. -/
def computeTransmittance (M : MathPrims α) (height angle : α) : Vec3 α :=
  let rayOrigin : Vec3 α := (0, GROUND_RADIUS + height, 0)
  let rayDirection : Vec3 α := (M.sin angle, M.cos angle, 0)
  match intersectSphere M.sqrt rayOrigin rayDirection TOP_RADIUS with
  | none => (1, 1, 1)
  | some distance =>
    if distance = 0 then (1, 1, 1)
    else transmittanceIntegrate M height angle distance

/-- The altitude-dependent exposure computation of `renderGradient` in
`gradient.ts` (the four-branch `if` chain on `sunHeight = sin(altitude)`). -/
def exposureOf (sunHeight : α) : α :=
  if sunHeight ≤ -0.15 then EXPOSURE_NIGHT
  else if sunHeight ≤ 0.0 then
    let x := (sunHeight - -0.15) / 0.15
    let s := x * x * (3 - 2 * x)
    EXPOSURE_NIGHT + s * (EXPOSURE_SUNSET - EXPOSURE_NIGHT)
  else if sunHeight ≤ 0.4 then
    let x := sunHeight / 0.4
    let s := x * x * (3 - 2 * x)
    EXPOSURE_SUNSET + s * (EXPOSURE_DAY - EXPOSURE_SUNSET)
  else EXPOSURE_DAY

/-- The focal depth `focalZ` computed in `renderGradient` in `gradient.ts`. -/
def focalZ (M : MathPrims α) : α := 1.0 / M.tan (FOV_DEG * 0.5 * M.pi / 180.0)

/-- One iteration of the ray-march loop (`for j`) inside `renderGradient` in
`gradient.ts`; the state is `(inscattered, tRay)`. -/
def marchStep (M : MathPrims α) (rayOrigin viewDirection sunDirection : Vec3 α)
    (segmentLength : α) (isRayPointingDownwardAtStart : Bool)
    (transmittanceCameraToSpace : Vec3 α) (st : Vec3 α × α) (_j : ℕ) : Vec3 α × α :=
  let inscattered := st.1
  let tRay := st.2
  let samplePos := add rayOrigin (scale viewDirection tRay)
  let sampleRadius := len M.sqrt samplePos
  let upUnit : Vec3 α := (samplePos.1 / sampleRadius, samplePos.2.1 / sampleRadius,
    samplePos.2.2 / sampleRadius)
  let sampleHeight := sampleRadius - GROUND_RADIUS
  let viewCos := clamp (dot upUnit viewDirection) (-1) 1
  let sunCos := clamp (dot upUnit sunDirection) (-1) 1
  let viewAngle := M.acos |viewCos|
  let sunAngle := M.acos sunCos
  let transmittanceToSpace := computeTransmittance M sampleHeight viewAngle
  let transmittanceCameraToSample : Vec3 α :=
    if isRayPointingDownwardAtStart then
      (transmittanceToSpace.1 / transmittanceCameraToSpace.1,
       transmittanceToSpace.2.1 / transmittanceCameraToSpace.2.1,
       transmittanceToSpace.2.2 / transmittanceCameraToSpace.2.2)
    else
      (transmittanceCameraToSpace.1 / transmittanceToSpace.1,
       transmittanceCameraToSpace.2.1 / transmittanceToSpace.2.1,
       transmittanceCameraToSpace.2.2 / transmittanceToSpace.2.2)
  let transmittanceLight := computeTransmittance M sampleHeight sunAngle
  let opticalDensityRay := M.exp (-sampleHeight / RAYLEIGH_SCALE_HEIGHT)
  let opticalDensityMie := M.exp (-sampleHeight / MIE_SCALE_HEIGHT)
  let sunViewCos := clamp (dot sunDirection viewDirection) (-1) 1
  let sunViewAngle := M.acos sunViewCos
  let phaseR := rayleighPhase M sunViewAngle
  let phaseM := miePhase M sunViewAngle
  let scatteredRgb : Vec3 α :=
    (transmittanceLight.1 * ((RAYLEIGH_SCATTER : Vec3 α).1 * opticalDensityRay * phaseR +
       MIE_SCATTER * opticalDensityMie * phaseM),
     transmittanceLight.2.1 * ((RAYLEIGH_SCATTER : Vec3 α).2.1 * opticalDensityRay * phaseR +
       MIE_SCATTER * opticalDensityMie * phaseM),
     transmittanceLight.2.2 * ((RAYLEIGH_SCATTER : Vec3 α).2.2 * opticalDensityRay * phaseR +
       MIE_SCATTER * opticalDensityMie * phaseM))
  ((inscattered.1 + transmittanceCameraToSample.1 * scatteredRgb.1 * segmentLength,
    inscattered.2.1 + transmittanceCameraToSample.2.1 * scatteredRgb.2.1 * segmentLength,
    inscattered.2.2 + transmittanceCameraToSample.2.2 * scatteredRgb.2.2 * segmentLength),
   tRay + segmentLength)

/-- Gradient stop as assembled by `renderGradient`: a percentage along the
vertical axis together with a quantized 8-bit RGB color. -/
structure GradientStop (α : Type*) where
  percent : α
  rgb : ℤ × ℤ × ℤ
deriving DecidableEq

/-- JavaScript `Math.round`: round half toward positive infinity. -/
def jsRound [FloorRing α] (x : α) : ℤ := ⌊x + 1 / 2⌋

/-- One iteration of the view-sampling loop (`for i`) of `renderGradient` in
`gradient.ts`: build the view ray for sample `i`, integrate in-scattering if the
ray reaches the atmosphere, tone map, quantize, and attach the stop percent. -/
def sampleStop [FloorRing α] (M : MathPrims α) (altitude : α) (i : ℕ) : GradientStop α :=
  let cameraPosition : Vec3 α := (0, GROUND_RADIUS, 0)
  let sunDirection := norm M.sqrt (M.cos altitude, M.sin altitude, 0)
  let sunHeight := M.sin altitude
  let exposure := exposureOf sunHeight
  let horizonGlow := max 0 (1 - |sunHeight| * 3)
  let s := (i : α) / ((SAMPLES : α) - 1)
  let viewDirection := norm M.sqrt (0, s, focalZ M)
  let inscattered : Vec3 α :=
    match intersectSphere M.sqrt cameraPosition viewDirection TOP_RADIUS with
    | none => (0, 0, 0)
    | some tExitTop =>
      if tExitTop > 0 then
        let rayOrigin := cameraPosition
        let segmentLength := tExitTop / (SAMPLES : α)
        let rayOriginRadius := len M.sqrt rayOrigin
        let isRayPointingDownwardAtStart :=
          decide (dot rayOrigin viewDirection / rayOriginRadius < 0)
        let startHeight := rayOriginRadius - GROUND_RADIUS
        let startRayCos := clamp (dot (rayOrigin.1 / rayOriginRadius,
          rayOrigin.2.1 / rayOriginRadius, rayOrigin.2.2 / rayOriginRadius) viewDirection) (-1) 1
        let startRayAngle := M.acos |startRayCos|
        let transmittanceCameraToSpace := computeTransmittance M startHeight startRayAngle
        let res := (List.range SAMPLES).foldl
          (marchStep M rayOrigin viewDirection sunDirection segmentLength
            isRayPointingDownwardAtStart transmittanceCameraToSpace)
          ((0, 0, 0), segmentLength * 0.5)
        scale res.1 SUN_INTENSITY
      else (0, 0, 0)
  let color1 := (inscattered.1 * exposure, inscattered.2.1 * exposure,
    inscattered.2.2 * exposure)
  let color2 :=
    if horizonGlow > 0 then
      let warmth := horizonGlow * 0.6
      (color1.1 * (1 + warmth), color1.2.1 * (1 + warmth * 0.3),
       color1.2.2 * (1 - warmth * 0.2))
    else color1
  let color3 := applySunsetBias color2
  let color4 := aces color3
  let color5 := (M.pow color4.1 (1.0 / GAMMA), M.pow color4.2.1 (1.0 / GAMMA),
    M.pow color4.2.2 (1.0 / GAMMA))
  let rgb := (jsRound (clamp color5.1 0 1 * 255), jsRound (clamp color5.2.1 0 1 * 255),
    jsRound (clamp color5.2.2 0 1 * 255))
  let percent := (1 - s) * 100
  { percent := percent, rgb := rgb }

/-- The stop list assembled by the `for i` loop of `renderGradient`, before
sorting. -/
def rawStops [FloorRing α] (M : MathPrims α) (altitude : α) : List (GradientStop α) :=
  (List.range SAMPLES).map (sampleStop M altitude)

/-- The stop list after the `stops.sort((a, b) => a.percent - b.percent)` call
of `renderGradient`: ascending sort by `percent`. -/
def sortedStops [FloorRing α] (M : MathPrims α) (altitude : α) : List (GradientStop α) :=
  (rawStops M altitude).mergeSort (fun u v => u.percent ≤ v.percent)

/-- Modelled from the spec: JavaScript default number-to-string conversion for
the rounded percent value `Math.round(percent * 100) / 100` (at most two
decimal places; integers print without a decimal point). -/
def fmtPercent [FloorRing α] (x : α) : String :=
  let n := jsRound (x * 100)
  let ip := n / 100
  let fp := (n % 100).toNat
  if fp = 0 then toString ip
  else if fp % 10 = 0 then toString ip ++ "." ++ toString (fp / 10)
  else if fp < 10 then toString ip ++ ".0" ++ toString fp
  else toString ip ++ "." ++ toString fp

/-- The CSS text of one stop, as interpolated by `renderGradient`. -/
def stopString [FloorRing α] (st : GradientStop α) : String :=
  "rgb(" ++ toString st.rgb.1 ++ ", " ++ toString st.rgb.2.1 ++ ", " ++
    toString st.rgb.2.2 ++ ") " ++ fmtPercent st.percent ++ "%"

/-- Result record of `renderGradient` in `gradient.ts`. -/
structure GradientResult (α : Type*) where
  gradient : String
  topColor : ℤ × ℤ × ℤ
  bottomColor : ℤ × ℤ × ℤ
deriving DecidableEq

/-- Function `renderGradient` from `gradient.ts`. The JavaScript code reads
`stops[0]` and `stops[stops.length - 1]` after sorting; an empty stop list
would make those `undefined`, which the embedding models by returning `none`. -/
def renderGradient [FloorRing α] (M : MathPrims α) (altitude : α) :
    Option (GradientResult α) :=
  let stops := sortedStops M altitude
  let colorStops := String.intercalate ", " (stops.map stopString)
  stops.head?.bind fun first =>
    stops.getLast?.map fun lastStop =>
      { gradient := "linear-gradient(to bottom, " ++ colorStops ++ ")",
        topColor := first.rgb, bottomColor := lastStop.rgb }

/-- Function `getMultipleScatteringOffset` from `correction.ts`. -/
def getMultipleScatteringOffset (pi altitude : α) : α :=
  let DEG_TO_RAD := pi / 180
  let altDeg := altitude / DEG_TO_RAD
  if altDeg > 20 then 2.0 * DEG_TO_RAD
  else if altDeg > -6 then
    let t := (20 - altDeg) / 26
    let smoothT := t * t * (3 - 2 * t)
    (2.0 + smoothT * 6.0) * DEG_TO_RAD
  else if altDeg > -12 then
    let t := (-6 - altDeg) / 6
    let smoothT := t * t * (3 - 2 * t)
    (8.0 + smoothT * 3.0) * DEG_TO_RAD
  else
    let t := max 0 ((-12 - altDeg) / 18)
    11.0 * (1 - t) * DEG_TO_RAD

/-- The table `LIGHT_POLLUTION_OFFSETS` from `correction.ts`; a JavaScript
`Record<number, number>` lookup that misses returns `undefined`, modelled by
`none`. -/
def lightPollutionOffsets (bortle : α) : Option α :=
  if bortle = 1 then some 0.0
  else if bortle = 2 then some 0.1
  else if bortle = 3 then some 0.2
  else if bortle = 4 then some 1.0
  else if bortle = 5 then some 2.0
  else if bortle = 6 then some 3.0
  else if bortle = 7 then some 4.0
  else if bortle = 8 then some 5.0
  else if bortle = 9 then some 6.0
  else none

/-- Function `getLightPollutionAltitude` from `correction.ts`; the JavaScript
`?? 0` fallback is modelled by `Option.getD 0`. -/
def getLightPollutionAltitude (pi bortle : α) : α :=
  let offsetDeg := (lightPollutionOffsets bortle).getD 0
  (offsetDeg - 3.0) * (pi / 180)

/-- The altitude-correction pipeline of `computeSky` in `compute.ts` with
`sunTimes` disabled: starting from the raw ephemeris altitude, add the
multiple-scattering offset, then, when a Bortle value is supplied, floor at the
light-pollution altitude. -/
def computeSkyAltitude (pi : α) (bortle : Option α) (rawAltitude : α) : α :=
  let altitude := rawAltitude + getMultipleScatteringOffset pi rawAltitude
  match bortle with
  | some b => max altitude (getLightPollutionAltitude pi b)
  | none => altitude

/-- Concrete rational instantiation of the abstract `Math` primitives, used
only to evaluate the embedding at explicit inputs.  The structural facts
proved about the renderer hold for every `MathPrims` instantiation, so any
choice is a valid vehicle for exhibiting concrete behavior of the assembly
code (percent layout, sorting, extreme-stop selection). -/
def testPrims : MathPrims ℚ where
  pi := 3
  sin := fun _ => 0
  cos := fun _ => 1
  tan := fun _ => 1
  acos := fun _ => 0
  sqrt := fun _ => 1
  exp := fun _ => 1000000
  pow := fun x _ => x

/-! ### Structural lemmas about the stop list -/

theorem percent_sampleStop [FloorRing α] (M : MathPrims α) (a : α) (i : ℕ) :
    (sampleStop M a i).percent = (1 - (i : α) / 31) * 100 := by
  simp only [sampleStop, SAMPLES]
  norm_num

theorem length_rawStops [FloorRing α] (M : MathPrims α) (a : α) :
    (rawStops M a).length = 32 := by
  simp [rawStops, SAMPLES]

theorem rawStops_pairwise_gt [FloorRing α] (M : MathPrims α) (a : α) :
    (rawStops M a).Pairwise (fun u v => v.percent < u.percent) := by
  rw [rawStops, List.pairwise_map]
  refine (List.pairwise_lt_range SAMPLES).imp ?_
  intro i j hij
  rw [percent_sampleStop, percent_sampleStop]
  have hc : (i : α) < (j : α) := by exact_mod_cast hij
  have h31 : (0 : α) < 31 := by norm_num
  have := (div_lt_div_iff_of_pos_right h31).mpr hc
  linarith

theorem rawStops_percent_nodup [FloorRing α] (M : MathPrims α) (a : α) :
    ((rawStops M a).map GradientStop.percent).Nodup := by
  rw [List.Nodup, List.pairwise_map]
  exact (rawStops_pairwise_gt M a).imp fun h => ne_of_gt h

theorem sortedStops_pairwise_le [FloorRing α] (M : MathPrims α) (a : α) :
    (sortedStops M a).Pairwise (fun u v => u.percent ≤ v.percent) := by
  have h := @List.sorted_mergeSort (GradientStop α)
    (fun u v => decide (u.percent ≤ v.percent))
    (fun u v w huv hvw => by
      simp only [decide_eq_true_eq] at *
      exact le_trans huv hvw)
    (fun u v => by
      simp only [Bool.or_eq_true, decide_eq_true_eq]
      exact le_total u.percent v.percent)
    (rawStops M a)
  rw [sortedStops]
  exact h.imp fun hb => of_decide_eq_true hb

theorem sortedStops_perm [FloorRing α] (M : MathPrims α) (a : α) :
    (sortedStops M a).Perm (rawStops M a) :=
  List.mergeSort_perm (rawStops M a) _

theorem sortedStops_pairwise_lt [FloorRing α] (M : MathPrims α) (a : α) :
    (sortedStops M a).Pairwise (fun u v => u.percent < v.percent) := by
  have hnd : ((sortedStops M a).map GradientStop.percent).Nodup :=
    (((sortedStops_perm M a).map GradientStop.percent).nodup_iff).mpr
      (rawStops_percent_nodup M a)
  have hle : ((sortedStops M a).map GradientStop.percent).Pairwise (· ≤ ·) :=
    List.pairwise_map.mpr (sortedStops_pairwise_le M a)
  have hlt : ((sortedStops M a).map GradientStop.percent).Pairwise (· < ·) :=
    (hle.and hnd).imp fun h => lt_of_le_of_ne h.1 h.2
  exact List.pairwise_map.mp hlt

theorem sortedStops_eq_reverse [FloorRing α] (M : MathPrims α) (a : α) :
    sortedStops M a = (rawStops M a).reverse := by
  haveI : IsAntisymm (GradientStop α) (fun u v => u.percent < v.percent) :=
    ⟨fun u v h1 h2 => absurd (h1.trans h2) (lt_irrefl _)⟩
  have hs1 : List.Sorted (fun u v : GradientStop α => u.percent < v.percent)
      (sortedStops M a) := sortedStops_pairwise_lt M a
  have hs2 : List.Sorted (fun u v : GradientStop α => u.percent < v.percent)
      ((rawStops M a).reverse) :=
    List.pairwise_reverse.mpr (rawStops_pairwise_gt M a)
  exact List.eq_of_perm_of_sorted
    ((sortedStops_perm M a).trans (List.reverse_perm _).symm) hs1 hs2

theorem length_sortedStops [FloorRing α] (M : MathPrims α) (a : α) :
    (sortedStops M a).length = 32 := by
  rw [sortedStops_eq_reverse, List.length_reverse, length_rawStops]

/-- Claim C4 (confirmed): for every altitude (and every instantiation of the
math primitives), the stop list assembled by `renderGradient` contains exactly
`SAMPLES = 32` stops, and after the ascending sort the stops are strictly
ordered by `percent`. -/
theorem C4_stops_count_and_strict_order {α : Type*} [LinearOrderedField α] [FloorRing α]
    (M : MathPrims α) (a : α) :
    (sortedStops M a).length = 32 ∧
      (sortedStops M a).Pairwise (fun u v => u.percent < v.percent) :=
  ⟨length_sortedStops M a, sortedStops_pairwise_lt M a⟩

theorem rawStops_getElem? [FloorRing α] (M : MathPrims α) (a : α) (i : ℕ)
    (h : i < 32) : (rawStops M a)[i]? = some (sampleStop M a i) := by
  simp only [rawStops, SAMPLES, List.getElem?_map]
  rw [List.getElem?_range h]
  rfl

/-- Claim C2, amended (the code swaps the two ends relative to the claim): for
every altitude, view sample `i = SAMPLES - 1 = 31` (the most upward view
direction) is assigned `percent = 0` exactly, and view sample `i = 0` (the
horizon-ward direction at the field-of-view edge) is assigned
`percent = 100` exactly. -/
theorem C2_percent_assignment {α : Type*} [LinearOrderedField α] [FloorRing α]
    (M : MathPrims α) (a : α) :
    (rawStops M a)[31]?.map GradientStop.percent = some 0 ∧
      (rawStops M a)[0]?.map GradientStop.percent = some 100 := by
  rw [rawStops_getElem? M a 31 (by norm_num), rawStops_getElem? M a 0 (by norm_num)]
  simp [percent_sampleStop]

/-- Claim C2 as stated is false: at altitude `0` (with the rational test
instantiation of the math primitives — the percent layout does not depend on
them), the topmost view sample `i = 31` is assigned percent `0`, not `100`. -/
theorem C2_counterexample :
    (rawStops testPrims (0 : ℚ))[31]?.map GradientStop.percent = some 0 ∧
      (rawStops testPrims (0 : ℚ))[31]?.map GradientStop.percent ≠ some 100 := by
  rw [rawStops_getElem? testPrims (0 : ℚ) 31 (by norm_num)]
  simp [percent_sampleStop]

theorem sortedStops_head? [FloorRing α] (M : MathPrims α) (a : α) :
    (sortedStops M a).head? = some (sampleStop M a 31) := by
  rw [sortedStops_eq_reverse, List.head?_reverse, List.getLast?_eq_getElem?,
    length_rawStops]
  exact rawStops_getElem? M a 31 (by norm_num)

theorem sortedStops_getLast? [FloorRing α] (M : MathPrims α) (a : α) :
    (sortedStops M a).getLast? = some (sampleStop M a 0) := by
  rw [sortedStops_eq_reverse, List.getLast?_reverse, List.head?_eq_getElem?]
  exact rawStops_getElem? M a 0 (by norm_num)

theorem renderGradient_map_extremes [FloorRing α] (M : MathPrims α) (a : α) :
    (renderGradient M a).map (fun r => (r.topColor, r.bottomColor))
      = some ((sampleStop M a 31).rgb, (sampleStop M a 0).rgb) := by
  simp only [renderGradient, sortedStops_head?, sortedStops_getLast?,
    Option.some_bind, Option.map_some']

theorem renderGradient_eq_some [FloorRing α] (M : MathPrims α) (a : α) :
    ∃ r, renderGradient M a = some r ∧ r.topColor = (sampleStop M a 31).rgb ∧
      r.bottomColor = (sampleStop M a 0).rgb := by
  obtain ⟨r, hr, hpair⟩ := Option.map_eq_some'.mp (renderGradient_map_extremes M a)
  exact ⟨r, hr, congrArg Prod.fst hpair, congrArg Prod.snd hpair⟩

theorem sortedStops_percent_bounds [FloorRing α] (M : MathPrims α) (a : α) :
    ∀ t ∈ sortedStops M a, 0 ≤ t.percent ∧ t.percent ≤ 100 := by
  intro t ht
  rw [(sortedStops_perm M a).mem_iff, rawStops, List.mem_map] at ht
  obtain ⟨i, hi, rfl⟩ := ht
  rw [List.mem_range, SAMPLES] at hi
  rw [percent_sampleStop]
  have h0 : (0 : α) ≤ (i : α) := by positivity
  have h31 : (i : α) ≤ 31 := by exact_mod_cast Nat.le_of_lt_succ hi
  have hd0 : (0 : α) ≤ (i : α) / 31 := by positivity
  have hd1 : (i : α) / 31 ≤ 1 := by
    rw [div_le_one (by norm_num : (0 : α) < 31)]; exact h31
  constructor <;> nlinarith

theorem sampleStop_mem_sortedStops [FloorRing α] (M : MathPrims α) (a : α)
    (i : ℕ) (h : i < 32) : sampleStop M a i ∈ sortedStops M a := by
  rw [(sortedStops_perm M a).mem_iff, rawStops]
  exact List.mem_map_of_mem _ (List.mem_range.mpr (by rw [SAMPLES]; exact h))

/-- Claim C3, amended (the code reads the extreme stops the other way around):
for every altitude, `renderGradient` returns a result whose `topColor` is the
color of the stop with the LOWEST percent and whose `bottomColor` is the color
of the stop with the HIGHEST percent. -/
theorem C3_extreme_colors {α : Type*} [LinearOrderedField α] [FloorRing α]
    (M : MathPrims α) (a : α) :
    ∃ r sTop sBot, renderGradient M a = some r ∧
      sTop ∈ sortedStops M a ∧ sBot ∈ sortedStops M a ∧
      r.topColor = sTop.rgb ∧ r.bottomColor = sBot.rgb ∧
      ∀ t ∈ sortedStops M a, sTop.percent ≤ t.percent ∧ t.percent ≤ sBot.percent := by
  obtain ⟨r, hr, htop, hbot⟩ := renderGradient_eq_some M a
  refine ⟨r, sampleStop M a 31, sampleStop M a 0, hr,
    sampleStop_mem_sortedStops M a 31 (by norm_num),
    sampleStop_mem_sortedStops M a 0 (by norm_num), htop, hbot, ?_⟩
  intro t ht
  have hb := sortedStops_percent_bounds M a t ht
  rw [percent_sampleStop, percent_sampleStop]
  push_cast
  constructor
  · calc (1 - 31 / 31 : α) * 100 = 0 := by norm_num
      _ ≤ t.percent := hb.1
  · calc t.percent ≤ 100 := hb.2
      _ = (1 - 0 / 31 : α) * 100 := by norm_num

/-! ### Concrete evaluation of the renderer at the rational test primitives -/

set_option maxHeartbeats 4000000 in
set_option maxRecDepth 100000 in
theorem sampleStop0_eval :
    sampleStop testPrims (0 : ℚ) 0 = ⟨100, (255, 255, 255)⟩ := by
  with_unfolding_all rfl

set_option maxHeartbeats 4000000 in
set_option maxRecDepth 100000 in
theorem sampleStop31_eval :
    sampleStop testPrims (0 : ℚ) 31 = ⟨0, (0, 0, 0)⟩ := by
  with_unfolding_all rfl

/-- Claim C3 as stated is false: at altitude `0` with the rational test
instantiation of the math primitives, the rendered `topColor` is `(0, 0, 0)`,
while the stop with the highest percent (percent `100`) has color
`(255, 255, 255)`. -/
theorem C3_counterexample :
    ∃ r, renderGradient testPrims (0 : ℚ) = some r ∧
      ∃ sBot ∈ sortedStops testPrims (0 : ℚ),
        (∀ t ∈ sortedStops testPrims (0 : ℚ), t.percent ≤ sBot.percent) ∧
          r.topColor ≠ sBot.rgb := by
  obtain ⟨r, hr, htop, _⟩ := renderGradient_eq_some testPrims (0 : ℚ)
  refine ⟨r, hr, sampleStop testPrims (0 : ℚ) 0,
    sampleStop_mem_sortedStops testPrims (0 : ℚ) 0 (by norm_num), ?_, ?_⟩
  · intro t ht
    rw [percent_sampleStop]
    calc t.percent ≤ 100 := (sortedStops_percent_bounds testPrims 0 t ht).2
      _ = (1 - (0 : ℕ) / 31 : ℚ) * 100 := by norm_num
  · rw [htop, sampleStop0_eval, sampleStop31_eval]
    intro hc
    simp [Prod.ext_iff] at hc

/-- Witness for C2: the percent layout at the rational test primitives and
altitude `0`. -/
theorem C2_percent_assignment_witness :
    (rawStops testPrims (0 : ℚ))[31]?.map GradientStop.percent = some 0 ∧
      (rawStops testPrims (0 : ℚ))[0]?.map GradientStop.percent = some 100 :=
  C2_percent_assignment testPrims 0

/-- Witness for C3: the extreme-stop selection at the rational test
primitives and altitude `0`. -/
theorem C3_extreme_colors_witness :
    ∃ r sTop sBot, renderGradient testPrims (0 : ℚ) = some r ∧
      sTop ∈ sortedStops testPrims (0 : ℚ) ∧ sBot ∈ sortedStops testPrims (0 : ℚ) ∧
      r.topColor = sTop.rgb ∧ r.bottomColor = sBot.rgb ∧
      ∀ t ∈ sortedStops testPrims (0 : ℚ),
        sTop.percent ≤ t.percent ∧ t.percent ≤ sBot.percent :=
  C3_extreme_colors testPrims 0

/-- Witness for C4: the stop count and strict ordering at the rational test
primitives and altitude `0`. -/
theorem C4_stops_count_and_strict_order_witness :
    (sortedStops testPrims (0 : ℚ)).length = 32 ∧
      (sortedStops testPrims (0 : ℚ)).Pairwise (fun u v => u.percent < v.percent) :=
  C4_stops_count_and_strict_order testPrims 0

/-! ### Claims about the altitude-correction stage, over the real numbers -/

theorem msOffset_deep (a : ℝ) (h : a / (Real.pi / 180) ≤ -12) :
    getMultipleScatteringOffset Real.pi a
      = 11.0 * (1 - max 0 ((-12 - a / (Real.pi / 180)) / 18)) * (Real.pi / 180) := by
  rw [getMultipleScatteringOffset]
  rw [if_neg (by push_neg; linarith), if_neg (by push_neg; linarith),
    if_neg (by push_neg; linarith)]

/-- Claim C1, amended (the code's deep-twilight decay is not clamped below
−30°): for every altitude `a ≤ −30°` (in radians), the multiple-scattering
offset is nonpositive, and it equals `0` exactly when `a = −30°`; strictly
below −30° the linear decay continues into negative offsets. -/
theorem C1_ms_offset_below_minus30 (a : ℝ) (h : a ≤ -30 * (Real.pi / 180)) :
    getMultipleScatteringOffset Real.pi a ≤ 0 ∧
      (getMultipleScatteringOffset Real.pi a = 0 ↔ a = -30 * (Real.pi / 180)) := by
  have hD : (0 : ℝ) < Real.pi / 180 := by positivity
  have hx : a / (Real.pi / 180) ≤ -30 := by
    rw [div_le_iff₀ hD]; linarith
  rw [msOffset_deep a (by linarith)]
  set x := a / (Real.pi / 180) with hxdef
  have hax : a = x * (Real.pi / 180) := by
    rw [hxdef, div_mul_cancel₀ _ (ne_of_gt hD)]
  have ht : max 0 ((-12 - x) / 18) = (-12 - x) / 18 :=
    max_eq_right (by linarith)
  rw [ht]
  have ht1 : 1 ≤ (-12 - x) / 18 := by linarith
  constructor
  · have hcoef : 11.0 * (1 - (-12 - x) / 18) ≤ 0 := by norm_num; linarith
    exact mul_nonpos_of_nonpos_of_nonneg hcoef hD.le
  · constructor
    · intro h0
      have hcoef : 11.0 * (1 - (-12 - x) / 18) = 0 :=
        (mul_eq_zero.mp h0).resolve_right (ne_of_gt hD)
      have hx30 : x = -30 := by
        have : 1 - (-12 - x) / 18 = 0 := by
          rcases mul_eq_zero.mp hcoef with h | h
          · norm_num at h
          · exact h
        linarith
      rw [hax, hx30]
    · intro ha
      have hx30 : x = -30 := by
        rw [hxdef, ha, mul_div_assoc]
        field_simp
      rw [hx30]; norm_num

/-- Claim C1 as stated is false: at altitude `−36° = −π/5` radians (which is
at or below −30°), the multiple-scattering offset is `−11π/540 ≠ 0`, not `0` —
the code's decay parameter `t` exceeds 1 below −30° and is never clamped
from above. -/
theorem C1_counterexample :
    -(Real.pi / 5) ≤ -30 * (Real.pi / 180) ∧
      getMultipleScatteringOffset Real.pi (-(Real.pi / 5)) ≠ 0 := by
  have hπ := Real.pi_pos
  have hπ0 := Real.pi_ne_zero
  constructor
  · nlinarith
  · have hx : -(Real.pi / 5) / (Real.pi / 180) = -36 := by
      field_simp
      ring
    rw [msOffset_deep _ (by rw [hx]; norm_num), hx]
    have : max (0 : ℝ) ((-12 - (-36 : ℝ)) / 18) = 4 / 3 := by
      rw [max_eq_right (by norm_num)]; norm_num
    rw [this]
    intro hc
    rcases mul_eq_zero.mp hc with h | h
    · norm_num at h
    · exact hπ0 (by linarith [div_eq_zero_iff.mp h])

/-- Witness for C1: at exactly −30° (written as `−π/6`), the offset is `0`,
and the equality characterization holds. -/
theorem C1_ms_offset_below_minus30_witness :
    -(Real.pi / 6) ≤ -30 * (Real.pi / 180) ∧
      (getMultipleScatteringOffset Real.pi (-(Real.pi / 6)) ≤ 0 ∧
        (getMultipleScatteringOffset Real.pi (-(Real.pi / 6)) = 0 ↔
          -(Real.pi / 6) = -30 * (Real.pi / 180))) := by
  have h : -(Real.pi / 6) ≤ -30 * (Real.pi / 180) := le_of_eq (by ring)
  exact ⟨h, C1_ms_offset_below_minus30 (-(Real.pi / 6)) h⟩

theorem lightPollution_bortle9 :
    getLightPollutionAltitude Real.pi 9 = (6.0 - 3.0) * (Real.pi / 180) := by
  norm_num [getLightPollutionAltitude, lightPollutionOffsets]

/-- Claim C5 (confirmed): in the `computeSky` altitude pipeline with
`bortle = 9` and sun-times correction disabled, every raw altitude at or below
−6° (deep night) is corrected to exactly `(6.0 − 3.0)°` in radians: the
multiple-scattering offset never lifts such an altitude above the Bortle-9
light-pollution floor, so the `max` always returns the floor. -/
theorem C5_bortle9_deep_night_floor (raw : ℝ) (h : raw ≤ -6 * (Real.pi / 180)) :
    computeSkyAltitude Real.pi (some 9) raw = (6.0 - 3.0) * (Real.pi / 180) := by
  have hD : (0 : ℝ) < Real.pi / 180 := by positivity
  have hx : raw / (Real.pi / 180) ≤ -6 := by
    rw [div_le_iff₀ hD]; linarith
  have hax : raw = raw / (Real.pi / 180) * (Real.pi / 180) :=
    (div_mul_cancel₀ _ (ne_of_gt hD)).symm
  have hsum : raw + getMultipleScatteringOffset Real.pi raw ≤ 3 * (Real.pi / 180) := by
    rw [getMultipleScatteringOffset]
    rw [if_neg (by push_neg; linarith), if_neg (by push_neg; linarith)]
    set x := raw / (Real.pi / 180) with hxdef
    by_cases h3 : x > -12
    · rw [if_pos h3]
      have hkey : x + (8.0 + (-6 - x) / 6 * ((-6 - x) / 6) * (3 - 2 * ((-6 - x) / 6)) * 3.0) ≤ 3 := by
        nlinarith [sq_nonneg (x + 6), sq_nonneg (x + 9), mul_nonneg (mul_nonneg (by linarith : (0:ℝ) ≤ -6 - x) (by linarith : (0:ℝ) ≤ -6 - x)) (by linarith : (0:ℝ) ≤ -6 - x)]
      calc raw + (8.0 + (-6 - x) / 6 * ((-6 - x) / 6) * (3 - 2 * ((-6 - x) / 6)) * 3.0) * (Real.pi / 180)
          = (x + (8.0 + (-6 - x) / 6 * ((-6 - x) / 6) * (3 - 2 * ((-6 - x) / 6)) * 3.0)) * (Real.pi / 180) := by
            rw [hax]; ring
        _ ≤ 3 * (Real.pi / 180) := by
            exact mul_le_mul_of_nonneg_right hkey hD.le
    · rw [if_neg h3]
      push_neg at h3
      rw [max_eq_right (by linarith)]
      have hkey : x + 11.0 * (1 - (-12 - x) / 18) ≤ 3 := by linarith
      calc raw + 11.0 * (1 - (-12 - x) / 18) * (Real.pi / 180)
          = (x + 11.0 * (1 - (-12 - x) / 18)) * (Real.pi / 180) := by rw [hax]; ring
        _ ≤ 3 * (Real.pi / 180) := mul_le_mul_of_nonneg_right hkey hD.le
  show max (raw + getMultipleScatteringOffset Real.pi raw)
      (getLightPollutionAltitude Real.pi 9) = (6.0 - 3.0) * (Real.pi / 180)
  rw [lightPollution_bortle9, max_eq_right (by norm_num at hsum ⊢; linarith)]

/-- Witness for C5: the raw altitude `−π/6` (−30°) is deep night, and the
pipeline floors it at exactly 3° in radians. -/
theorem C5_bortle9_deep_night_floor_witness :
    -(Real.pi / 6) ≤ -6 * (Real.pi / 180) ∧
      computeSkyAltitude Real.pi (some 9) (-(Real.pi / 6))
        = (6.0 - 3.0) * (Real.pi / 180) := by
  have h : -(Real.pi / 6) ≤ -6 * (Real.pi / 180) := by
    have := Real.pi_pos
    nlinarith
  exact ⟨h, C5_bortle9_deep_night_floor _ h⟩

/-- Claim C10 (confirmed): for every Bortle value that is none of the table
keys 1–9, `getLightPollutionAltitude` falls back to the 0-degree entry and
returns exactly `(0 − 3)°` in radians, and the `computeSky` pipeline with such
a Bortle value floors the altitude at −3° instead of applying no correction. -/
theorem C10_bortle_fallback (b : ℝ) (h1 : b ≠ 1) (h2 : b ≠ 2) (h3 : b ≠ 3)
    (h4 : b ≠ 4) (h5 : b ≠ 5) (h6 : b ≠ 6) (h7 : b ≠ 7) (h8 : b ≠ 8) (h9 : b ≠ 9) :
    getLightPollutionAltitude Real.pi b = (0 - 3.0) * (Real.pi / 180) ∧
      ∀ raw : ℝ, computeSkyAltitude Real.pi (some b) raw
        = max (raw + getMultipleScatteringOffset Real.pi raw)
            ((0 - 3.0) * (Real.pi / 180)) := by
  have hlp : getLightPollutionAltitude Real.pi b = (0 - 3.0) * (Real.pi / 180) := by
    rw [getLightPollutionAltitude, lightPollutionOffsets]
    rw [if_neg h1, if_neg h2, if_neg h3, if_neg h4, if_neg h5, if_neg h6,
      if_neg h7, if_neg h8, if_neg h9]
    norm_num
  refine ⟨hlp, fun raw => ?_⟩
  show max (raw + getMultipleScatteringOffset Real.pi raw)
      (getLightPollutionAltitude Real.pi b) = _
  rw [hlp]

/-- Witness for C10: Bortle 10 is outside the table, the fallback floor is
−3°, and the pipeline maxes against it. -/
theorem C10_bortle_fallback_witness :
    getLightPollutionAltitude Real.pi 10 = (0 - 3.0) * (Real.pi / 180) ∧
      computeSkyAltitude Real.pi (some 10) 0
        = max (0 + getMultipleScatteringOffset Real.pi 0)
            ((0 - 3.0) * (Real.pi / 180)) := by
  have h := C10_bortle_fallback (10 : ℝ) (by norm_num) (by norm_num) (by norm_num)
    (by norm_num) (by norm_num) (by norm_num) (by norm_num) (by norm_num) (by norm_num)
  exact ⟨h.1, h.2 0⟩

theorem exposureOf_of_day {α : Type*} [LinearOrderedField α] (s : α)
    (h : 0.4 < s) : exposureOf s = 18.0 := by
  rw [exposureOf]
  rw [if_neg (by push_neg; norm_num; linarith), if_neg (by push_neg; norm_num; linarith),
    if_neg (by push_neg; norm_num; linarith)]
  norm_num [EXPOSURE_DAY]

/-- Claim C6 (confirmed): whenever `sin(altitude) > 0.4` — in particular for
every altitude in `(π/6, π/2)` — the exposure computed by `renderGradient`
equals the fixed day exposure `18.0` exactly, so any two such altitudes get
the same exposure (plateau). -/
theorem C6_day_exposure_plateau :
    (∀ a : ℝ, 0.4 < Real.sin a → exposureOf (Real.sin a) = 18.0) ∧
      (∀ a : ℝ, Real.pi / 6 < a → a < Real.pi / 2 → 0.4 < Real.sin a) ∧
      (∀ a1 a2 : ℝ, a1 < a2 → 0.4 < Real.sin a1 → 0.4 < Real.sin a2 →
        exposureOf (Real.sin a1) = exposureOf (Real.sin a2) ∧
          exposureOf (Real.sin a1) = 18.0) := by
  refine ⟨fun a ha => exposureOf_of_day _ ha, fun a ha1 ha2 => ?_, fun a1 a2 _ h1 h2 =>
    ⟨by rw [exposureOf_of_day _ h1, exposureOf_of_day _ h2], exposureOf_of_day _ h1⟩⟩
  have hπ := Real.pi_pos
  have hmem1 : Real.pi / 6 ∈ Set.Icc (-(Real.pi / 2)) (Real.pi / 2) := by
    constructor <;> nlinarith
  have hmem2 : a ∈ Set.Icc (-(Real.pi / 2)) (Real.pi / 2) := by
    constructor <;> nlinarith
  have := Real.strictMonoOn_sin hmem1 hmem2 ha1
  rw [Real.sin_pi_div_six] at this
  norm_num
  linarith

/-- Witness for C6: at altitude `π/2` the sine is `1 > 0.4` and the exposure
is the day exposure. -/
theorem C6_day_exposure_plateau_witness :
    (0.4 : ℝ) < Real.sin (Real.pi / 2) ∧
      exposureOf (Real.sin (Real.pi / 2)) = 18.0 := by
  have h : (0.4 : ℝ) < Real.sin (Real.pi / 2) := by
    rw [Real.sin_pi_div_two]; norm_num
  exact ⟨h, C6_day_exposure_plateau.1 (Real.pi / 2) h⟩

/-! ### Claims about the geometry and transmittance layers -/

/-- Claim C7 (confirmed): `intersectSphere` computes `b = p·d`,
`c = p·p − r²` and the discriminant `b² − c`; a negative discriminant yields
the empty result `none` (never an exception), otherwise the near root
`−b − √disc` is returned unless it is negative, in which case the far root
`−b + √disc` is returned instead. -/
theorem C7_intersectSphere_contract (p d : Vec3 ℝ) (r : ℝ) :
    (dot p d ^ 2 - (dot p p - r ^ 2) < 0 →
      intersectSphere Real.sqrt p d r = none) ∧
    (0 ≤ dot p d ^ 2 - (dot p p - r ^ 2) →
      (0 ≤ -dot p d - Real.sqrt (dot p d ^ 2 - (dot p p - r ^ 2)) →
        intersectSphere Real.sqrt p d r
          = some (-dot p d - Real.sqrt (dot p d ^ 2 - (dot p p - r ^ 2)))) ∧
      (-dot p d - Real.sqrt (dot p d ^ 2 - (dot p p - r ^ 2)) < 0 →
        intersectSphere Real.sqrt p d r
          = some (-dot p d + Real.sqrt (dot p d ^ 2 - (dot p p - r ^ 2))))) := by
  refine ⟨fun hneg => ?_, fun hpos => ⟨fun hge => ?_, fun hlt => ?_⟩⟩ <;>
    simp only [intersectSphere]
  · rw [if_pos hneg]
  · rw [if_neg (not_lt.mpr hpos), if_neg (not_lt.mpr hge)]
  · rw [if_neg (not_lt.mpr hpos), if_pos hlt]

/-- Witness for C7: the ray from `(0, 1, 0)` in direction `(1, 0, 0)` against
the degenerate sphere of radius `0` has negative discriminant and the
intersection is empty. -/
theorem C7_intersectSphere_contract_witness :
    dot ((0 : ℝ), 1, 0) ((1 : ℝ), 0, 0) ^ 2 -
        (dot ((0 : ℝ), 1, 0) ((0 : ℝ), 1, 0) - (0 : ℝ) ^ 2) < 0 ∧
      intersectSphere Real.sqrt ((0 : ℝ), 1, 0) ((1 : ℝ), 0, 0) 0 = none := by
  have hd : dot ((0 : ℝ), 1, 0) ((1 : ℝ), 0, 0) ^ 2 -
      (dot ((0 : ℝ), 1, 0) ((0 : ℝ), 1, 0) - (0 : ℝ) ^ 2) < 0 := by
    norm_num [dot]
  exact ⟨hd, (C7_intersectSphere_contract ((0 : ℝ), 1, 0) ((1 : ℝ), 0, 0) 0).1 hd⟩

theorem transmittanceIntegrate_pos {α : Type*} [LinearOrderedField α]
    (M : MathPrims α) (hexp : ∀ x, 0 < M.exp x) (h θ dist : α) :
    0 < (transmittanceIntegrate M h θ dist).1 ∧
      0 < (transmittanceIntegrate M h θ dist).2.1 ∧
      0 < (transmittanceIntegrate M h θ dist).2.2 := by
  simp only [transmittanceIntegrate, vecExp]
  exact ⟨hexp _, hexp _, hexp _⟩

/-- Claim C8 (confirmed): for every altitude (and any instantiation of the
math primitives whose exponential is positive-valued, as the real `exp` is),
`renderGradient` is total: it returns a complete `GradientResult`, and every
transmittance it can divide by is strictly positive componentwise, so no
division by a zero transmittance occurs. -/
theorem C8_total_no_zero_transmittance {α : Type*} [LinearOrderedField α]
    [FloorRing α] (M : MathPrims α) (a : α) (hexp : ∀ x, 0 < M.exp x) :
    (∃ r, renderGradient M a = some r) ∧
      ∀ h θ, 0 < (computeTransmittance M h θ).1 ∧
        0 < (computeTransmittance M h θ).2.1 ∧
        0 < (computeTransmittance M h θ).2.2 := by
  obtain ⟨r, hr, -, -⟩ := renderGradient_eq_some M a
  refine ⟨⟨r, hr⟩, fun h θ => ?_⟩
  rcases hi : intersectSphere M.sqrt ((0 : α), GROUND_RADIUS + h, 0)
      (M.sin θ, M.cos θ, 0) TOP_RADIUS with _ | dist
  · simp only [computeTransmittance, hi]
    norm_num
  · by_cases hd : dist = 0
    · simp only [computeTransmittance, hi, hd, if_pos]
      norm_num
    · simp only [computeTransmittance, hi, if_neg hd]
      exact transmittanceIntegrate_pos M hexp h θ dist

/-- Witness for C8: the rational test primitives have positive exponential,
and the renderer at altitude 0 is total with positive transmittances. -/
theorem C8_total_no_zero_transmittance_witness :
    (∀ x : ℚ, 0 < testPrims.exp x) ∧
      ((∃ r, renderGradient testPrims (0 : ℚ) = some r) ∧
        ∀ h θ : ℚ, 0 < (computeTransmittance testPrims h θ).1 ∧
          0 < (computeTransmittance testPrims h θ).2.1 ∧
          0 < (computeTransmittance testPrims h θ).2.2) := by
  have hexp : ∀ x : ℚ, 0 < testPrims.exp x := fun x => by norm_num [testPrims]
  exact ⟨hexp, C8_total_no_zero_transmittance testPrims 0 hexp⟩

/-- Claim C9 (confirmed): for heights `0 ≤ h < 100000` the transmittance ray
origin lies strictly inside the top-of-atmosphere sphere, so `intersectSphere`
returns a strictly positive distance; the falsy `!distance` open-sky branch of
`computeTransmittance` (which would also fire on a zero distance) is
unreachable and the 32-step optical-depth integration is always performed. -/
theorem C9_integration_always_runs {α : Type*} [LinearOrderedField α]
    (M : MathPrims α) (h θ : α)
    (hsqrt : ∀ x, 0 ≤ x → 0 ≤ M.sqrt x ∧ M.sqrt x ^ 2 = x)
    (hh0 : 0 ≤ h) (hh : h < 100000) :
    ∃ t, intersectSphere M.sqrt ((0 : α), GROUND_RADIUS + h, 0)
        (M.sin θ, M.cos θ, 0) TOP_RADIUS = some t ∧ 0 < t ∧
      computeTransmittance M h θ = transmittanceIntegrate M h θ t := by
  have hG : (GROUND_RADIUS : α) = 6360000 := by norm_num [GROUND_RADIUS]
  have hT : (TOP_RADIUS : α) = 6460000 := by norm_num [TOP_RADIUS]
  have hb : dot ((0 : α), GROUND_RADIUS + h, 0) (M.sin θ, M.cos θ, 0)
      = (GROUND_RADIUS + h) * M.cos θ := by
    simp only [dot]; ring
  have hpp : dot ((0 : α), GROUND_RADIUS + h, 0) ((0 : α), GROUND_RADIUS + h, 0)
      = (GROUND_RADIUS + h) ^ 2 := by
    simp only [dot]; ring
  have hRh : (0 : α) < GROUND_RADIUS + h := by rw [hG]; linarith
  have hRT : GROUND_RADIUS + h < TOP_RADIUS := by rw [hG, hT]; linarith
  have hsq : (GROUND_RADIUS + h) ^ 2 < TOP_RADIUS ^ 2 := by nlinarith
  have hdisc : 0 < ((GROUND_RADIUS + h) * M.cos θ) ^ 2 -
      ((GROUND_RADIUS + h) ^ 2 - TOP_RADIUS ^ 2) := by
    nlinarith [sq_nonneg ((GROUND_RADIUS + h) * M.cos θ)]
  obtain ⟨hs0, hs2⟩ := hsqrt _ hdisc.le
  have hb2 : ((GROUND_RADIUS + h) * M.cos θ) ^ 2 <
      (M.sqrt (((GROUND_RADIUS + h) * M.cos θ) ^ 2 -
        ((GROUND_RADIUS + h) ^ 2 - TOP_RADIUS ^ 2))) ^ 2 := by
    rw [hs2]; nlinarith
  have hlt1 : (GROUND_RADIUS + h) * M.cos θ <
      M.sqrt (((GROUND_RADIUS + h) * M.cos θ) ^ 2 -
        ((GROUND_RADIUS + h) ^ 2 - TOP_RADIUS ^ 2)) :=
    lt_of_pow_lt_pow_left₀ 2 hs0 hb2
  have hlt2 : -((GROUND_RADIUS + h) * M.cos θ) <
      M.sqrt (((GROUND_RADIUS + h) * M.cos θ) ^ 2 -
        ((GROUND_RADIUS + h) ^ 2 - TOP_RADIUS ^ 2)) :=
    lt_of_pow_lt_pow_left₀ 2 hs0 (by rw [neg_sq]; exact hb2)
  have hnear : -((GROUND_RADIUS + h) * M.cos θ) -
      M.sqrt (((GROUND_RADIUS + h) * M.cos θ) ^ 2 -
        ((GROUND_RADIUS + h) ^ 2 - TOP_RADIUS ^ 2)) < 0 := by
    linarith
  have hfar : 0 < -((GROUND_RADIUS + h) * M.cos θ) +
      M.sqrt (((GROUND_RADIUS + h) * M.cos θ) ^ 2 -
        ((GROUND_RADIUS + h) ^ 2 - TOP_RADIUS ^ 2)) := by
    linarith
  have hisect : intersectSphere M.sqrt ((0 : α), GROUND_RADIUS + h, 0)
      (M.sin θ, M.cos θ, 0) TOP_RADIUS
      = some (-((GROUND_RADIUS + h) * M.cos θ) +
          M.sqrt (((GROUND_RADIUS + h) * M.cos θ) ^ 2 -
            ((GROUND_RADIUS + h) ^ 2 - TOP_RADIUS ^ 2))) := by
    simp only [intersectSphere, hb, hpp]
    rw [if_neg (not_lt.mpr hdisc.le), if_pos hnear]
  refine ⟨_, hisect, hfar, ?_⟩
  simp only [computeTransmittance, hisect, if_neg (ne_of_gt hfar)]

/-- Witness for C9: over the reals with the genuine `Math` primitives
(`Real.sin`, `Real.cos`, `Real.sqrt`, ...), at height `0` and angle `0` the
intersection distance is positive and the integration branch is taken. -/
theorem C9_integration_always_runs_witness :
    ∃ t, intersectSphere Real.sqrt ((0 : ℝ), GROUND_RADIUS + 0, 0)
        (Real.sin 0, Real.cos 0, 0) TOP_RADIUS = some t ∧ 0 < t ∧
      computeTransmittance
          { pi := Real.pi, sin := Real.sin, cos := Real.cos, tan := Real.tan,
            acos := Real.arccos, sqrt := Real.sqrt, exp := Real.exp,
            pow := fun x y => x ^ y } 0 0
        = transmittanceIntegrate
          { pi := Real.pi, sin := Real.sin, cos := Real.cos, tan := Real.tan,
            acos := Real.arccos, sqrt := Real.sqrt, exp := Real.exp,
            pow := fun x y => x ^ y } 0 0 t :=
  C9_integration_always_runs
    { pi := Real.pi, sin := Real.sin, cos := Real.cos, tan := Real.tan,
      acos := Real.arccos, sqrt := Real.sqrt, exp := Real.exp,
      pow := fun x y => x ^ y } 0 0
    (fun x hx => ⟨Real.sqrt_nonneg x, Real.sq_sqrt hx⟩)
    le_rfl (by norm_num)

end HorizonSky
